import Mathlib

/-!
Verification development for the Project Z backend (src/main.py), a FastAPI
application providing API-key authentication, fixed-window rate limiting,
audit logging, an asynchronous job queue, and an encrypted report store.
The definitions below are a shallow embedding of the relevant Python code;
line numbers refer to src/main.py.
-/

namespace ProjectZ

/-! ## String helpers

Python's `str.strip()`, `s[-4:]`, and `s.split(",")[0]` are modelled over the
character list of the string (ASCII whitespace suffices for the values the
middleware handles). -/

/-- ASCII whitespace test used to model Python's `str.strip()`. -/
def isWs (c : Char) : Bool :=
  c == ' ' || c == '\t' || c == '\n' || c == '\r' || c == '\x0b' || c == '\x0c'

/-- Python `str.strip()`: drop whitespace from both ends. -/
def strip (s : String) : String :=
  ⟨((s.data.dropWhile isWs).reverse.dropWhile isWs).reverse⟩

/-- Python `s[-4:]`: the last `n` characters (whole string when shorter). -/
def lastN (n : Nat) (s : String) : String :=
  ⟨(s.data.reverse.take n).reverse⟩

/-- Python `s.split(",")[0]`: the segment before the first comma. -/
def beforeComma (s : String) : String :=
  ⟨s.data.takeWhile (fun c => c != ',')⟩

/-- Python `x or ""` on an optional header value. -/
def orEmpty (o : Option String) : String := o.getD ("")

/-- Python `a or fb` for an optional string `a`: the fallback is used when
the value is absent or empty (falsy). -/
def orElseStr (o : Option String) (fb : String) : String :=
  match o with
  | none => fb
  | some s => if s = "" then fb else s

/-! ## API keys and auth (src/main.py lines 102-121)

`ALLOWED` maps each key to its role and display name; `_load_keys` always
populates both fields, strips every key, and skips empty keys, so a store is
an association list of nonempty strip-fixed keys with unique tokens. -/

/-- The role/name metadata stored for one API key in `ALLOWED`. -/
structure KeyMeta where
  role : String
  name : String
deriving DecidableEq

/-- The `ALLOWED` dict: token to metadata. -/
abbrev KeyStore := List (String × KeyMeta)

/-- The dict returned by `client_by_key` (lines 104-109). -/
structure Client where
  key : String
  role : String
  name : String
  key_last4 : String
deriving DecidableEq

/-- Invariant established by `_load_keys` (lines 76-100): unique tokens, all
nonempty and already stripped. -/
def WFStore (ks : KeyStore) : Prop :=
  (ks.map Prod.fst).Nodup ∧ ∀ p ∈ ks, p.1 ≠ "" ∧ strip p.1 = p.1

/-- `client_by_key` (lines 104-109): `if not k: return None`, strip, exact
dict lookup; on a hit returns key, stored role and name, and last 4 chars. -/
def client_by_key (ks : KeyStore) (k : Option String) : Option Client :=
  match k with
  | none => none
  | some k0 =>
    if k0 = "" then none
    else
      let k1 := strip k0
      match List.lookup k1 ks with
      | none => none
      | some meta => some ⟨k1, meta.role, meta.name, lastN 4 k1⟩

/-- `require_key` (lines 111-116): strip the `X-API-Key` header (absent
header modelled as `none`), resolve it, raise `HTTPException(401)` on
failure. -/
def require_key (ks : KeyStore) (header : Option String) : Except Nat Client :=
  let supplied := strip (orEmpty header)
  match client_by_key ks (some supplied) with
  | none => Except.error 401
  | some c => Except.ok c

/-- `require_admin` (lines 118-121): authenticate first, then raise
`HTTPException(403)` unless the resolved role is admin. -/
def require_admin (ks : KeyStore) (header : Option String) : Except Nat Client :=
  match require_key ks header with
  | Except.error e => Except.error e
  | Except.ok c => if c.role ≠ "admin" then Except.error 403 else Except.ok c

/-! ## Encryption layer (src/main.py lines 130-155)

`FERNET` is either `None` or a Fernet object from the external
`cryptography` library.  The library is not part of this repository, so it
is abstracted as an encrypt/decrypt pair; `decrypt` returning `none` models
a raised `InvalidToken`/exception. -/

/-- Abstract interface of the external Fernet object. -/
structure Scheme where
  encrypt : String → String
  decrypt : String → Option String

/-- Contract of the real Fernet object: decryption inverts encryption, and
ciphertexts of nonempty plaintexts are nonempty (Fernet tokens are never
the empty string). -/
def SchemeOK (f : Scheme) : Prop :=
  (∀ x : String, x ≠ "" → f.decrypt (f.encrypt x) = some x)
  ∧ (∀ x : String, x ≠ "" → f.encrypt x ≠ "")

/-- `enc` (lines 144-147): falsy values pass through, otherwise encrypt when
a Fernet object is configured. -/
def enc (fern : Option Scheme) (s : Option String) : Option String :=
  match s with
  | none => none
  | some s0 =>
    if s0 = "" then some s0
    else
      match fern with
      | none => some s0
      | some f => some (f.encrypt s0)

/-- `dec` (lines 149-155): falsy values pass through; a decryption failure
is swallowed and the input returned unchanged. -/
def dec (fern : Option Scheme) (s : Option String) : Option String :=
  match s with
  | none => none
  | some s0 =>
    if s0 = "" then some s0
    else
      match fern with
      | none => some s0
      | some f =>
        match f.decrypt s0 with
        | some p => some p
        | none => some s0

/-! ## Rate limiting and audit middleware (src/main.py lines 226-258) -/

/-- One `_BUCKET` entry: window start timestamp and call count. -/
structure Bucket where
  start : Int
  count : Nat
deriving DecidableEq

/-- The `_BUCKET` dict, keyed by the per-identity token. -/
abbrev BucketMap := List (String × Bucket)

/-- Python dict assignment `m[k] = v`: replace in place or append. -/
def mapSet {α : Type} (m : List (String × α)) (k : String) (v : α) :
    List (String × α) :=
  match m with
  | [] => [(k, v)]
  | (k0, v0) :: rest =>
    if k0 = k then (k, v) :: rest else (k0, v0) :: mapSet rest k v

/-- `_rtoken` (line 227): the SHA-1 hex digest of `ip ++ ":" ++ k` is
abstracted by its (injective) preimage, since only key identity matters. -/
def rtoken (ip k : String) : String := ip ++ ":" ++ k

/-- The rate decision of `RateLimitAndAudit.dispatch` (lines 240-249) for a
single identity: given the time `now` and that identity's bucket (absent
modelled as `none`, defaulting to `(now, 0)` as in `_BUCKET.get(tok, (now,
0))`), return the new bucket and whether the call was admitted.  Spec name:
`RateLimiter.admit`. -/
def rateCheck (W M : Nat) (now : Int) (b : Option Bucket) :
    Option Bucket × Bool :=
  let s := (b.getD ⟨now, 0⟩).start
  let c := (b.getD ⟨now, 0⟩).count
  if (W : Int) ≤ now - s then (some ⟨now, 1⟩, true)
  else if M < c + 1 then (b, false)
  else (some ⟨s, c + 1⟩, true)

/-- The inbound request data the middleware reads: method, path, the
`x-forwarded-for` and `X-API-Key` headers (absent = `none`), and
`request.client.host` ("" models a falsy host). -/
structure Request where
  method : String
  path : String
  xff : Option String
  apiKey : Option String
  clientHost : String
deriving DecidableEq

/-- Result of the inner application (`call_next`): a response with a status
code (an `HTTPException` such as the 401 from `require_key` is converted to
a response by the framework inside `call_next`), or an exception that
propagates out of `call_next`. -/
inductive Outcome
  | response (status : Nat)
  | raised (msg : String)
deriving DecidableEq

/-- Entries written to the rotating log: the 429 warning (line 247), the
audit line (line 255), and the unhandled-exception line (line 529). -/
inductive LogEntry
  | warn429 (ip kl4 path : String)
  | audit (method path : String) (status : Nat) (ip kl4 : String)
  | unhandled (msg : String)
deriving DecidableEq

/-- Line 235: first `x-forwarded-for` entry, else the client host, else
`"?"`. -/
def clientIp (req : Request) : String :=
  let x := strip (beforeComma (orEmpty req.xff))
  if x = "" then (if req.clientHost = "" then "?" else req.clientHost) else x

/-- Line 237: `key[-4:] if key else "none"` applied to the stripped key. -/
def kLast4 (key : String) : String :=
  if key = "" then "none" else lastN 4 key

/-- Line 232: paths that skip governance entirely. -/
def bypassed (path : String) : Bool :=
  List.isPrefixOf ("/static".data) path.data || path = "/health" || path = "/"

/-- The identity token the middleware buckets this request under. -/
def identityTok (req : Request) : String :=
  rtoken (clientIp req) (kLast4 (strip (orEmpty req.apiKey)))

/-- Lines 252-256: run the inner application and, on a response, append the
audit line; an exception propagates past the audit line and is converted to
a 500 by the global handler (lines 527-530), which logs it separately. -/
def afterRate (req : Request) (ip kl4 : String) (bucket2 : BucketMap)
    (inner : Outcome) : Nat × BucketMap × List LogEntry :=
  match inner with
  | Outcome.response st =>
    (st, bucket2, [LogEntry.audit req.method req.path st ip kl4])
  | Outcome.raised m => (500, bucket2, [LogEntry.unhandled m])

/-- `RateLimitAndAudit.dispatch` (lines 229-256): bypass check, identity
extraction, fixed-window rate check with short-circuit 429 (logged as a
warning, before the audit line is ever reached), then the inner app and the
audit line.  Returns the client-visible status, the updated `_BUCKET`, and
the log entries this request appended. -/
def dispatch (W M : Nat) (now : Int) (bucket : BucketMap) (req : Request)
    (inner : Outcome) : Nat × BucketMap × List LogEntry :=
  if bypassed req.path then
    match inner with
    | Outcome.response st => (st, bucket, [])
    | Outcome.raised m => (500, bucket, [LogEntry.unhandled m])
  else
    let ip := clientIp req
    let kl4 := kLast4 (strip (orEmpty req.apiKey))
    let tok := rtoken ip kl4
    let b := (List.lookup tok bucket).getD ⟨now, 0⟩
    if (W : Int) ≤ now - b.start then
      afterRate req ip kl4 (mapSet bucket tok ⟨now, 1⟩) inner
    else if M < b.count + 1 then
      (429, bucket, [LogEntry.warn429 ip kl4 req.path])
    else
      afterRate req ip kl4 (mapSet bucket tok ⟨b.start, b.count + 1⟩) inner

/-- The bucket value `dispatch` stores for a request that passes the rate
check: a reset window or the incremented current window. -/
def nextBucket (W : Nat) (now : Int) (b : Bucket) : Bucket :=
  if (W : Int) ≤ now - b.start then ⟨now, 1⟩ else ⟨b.start, b.count + 1⟩

/-- Whether the rate check of `dispatch` denies this request (mirror of the
branch structure of lines 242-248). -/
def rateDenied (W M : Nat) (now : Int) (bucket : BucketMap) (req : Request) :
    Bool :=
  let b := (List.lookup (identityTok req) bucket).getD ⟨now, 0⟩
  if (W : Int) ≤ now - b.start then false
  else if M < b.count + 1 then true
  else false

/-- The inner application for a key-protected route: `Depends(require_key)`
turns an auth failure into a 401 response before the route handler runs;
otherwise the handler receives the resolved client. -/
def innerApp (ks : KeyStore) (req : Request) (handler : Client → Outcome) :
    Outcome :=
  match require_key ks req.apiKey with
  | Except.error st => Outcome.response st
  | Except.ok c => handler c

/-- The full middleware-plus-route stack for a key-protected route. -/
def governedCall (ks : KeyStore) (W M : Nat) (now : Int) (bucket : BucketMap)
    (req : Request) (handler : Client → Outcome) :
    Nat × BucketMap × List LogEntry :=
  dispatch W M now bucket req (innerApp ks req handler)

/-- Whether a log entry is an audit record (line 255 format: method, path,
status, ip, key suffix). -/
def isAudit : LogEntry → Bool
  | LogEntry.audit _ _ _ _ _ => true
  | _ => false

/-- Number of audit records in a log fragment. -/
def auditCount (ls : List LogEntry) : Nat := (ls.filter isAudit).length

/-! ## Rate-limiter traces (for the per-window bound) -/

/-- One step of a per-identity call trace: feed the next call time through
`rateCheck` and track how many calls were admitted inside the limiter's
current window (the tally restarts at 1 whenever a call opens a new
window). -/
def runStep (W M : Nat) (p : Option Bucket × Nat) (t : Int) :
    Option Bucket × Nat :=
  let r := rateCheck W M t p.1
  if r.2 then
    match p.1 with
    | none => (r.1, 1)
    | some b => if (W : Int) ≤ t - b.start then (r.1, 1) else (r.1, p.2 + 1)
  else (r.1, p.2)

/-- Run a whole trace of call times for one identity, starting with no
window. -/
def runTrace (W M : Nat) (ts : List Int) : Option Bucket × Nat :=
  ts.foldl (runStep W M) (none, 0)

/-- The times of the admitted calls of a trace, in order. -/
def allowedTimes (W M : Nat) (ts : List Int) : List Int :=
  (ts.foldl
    (fun p t =>
      let r := rateCheck W M t p.1
      (r.1, if r.2 then p.2 ++ [t] else p.2))
    ((none, []) : Option Bucket × List Int)).2

/-- Invariant tying the tracked in-window tally to the stored bucket: the
tally equals the stored count, which never exceeds `M`. -/
def WindowInv (M : Nat) (p : Option Bucket × Nat) : Prop :=
  (p.1 = none ∧ p.2 = 0) ∨ ∃ b : Bucket, p.1 = some b ∧ p.2 = b.count ∧ b.count ≤ M

/-! ## Jobs (src/main.py lines 426-460) -/

/-- A record stored in `JOB_RESULTS`: only terminal records are ever
written (lines 440, 442, 444). -/
inductive JobRecord
  | done (created summary analysis : String)
  | error (msg : String)
deriving DecidableEq

/-- The `JOB_RESULTS` dict. -/
abbrev JobResults := List (String × JobRecord)

/-- The job-system state: the FIFO `JOB_Q` of (id, kind) and `JOB_RESULTS`. -/
structure JobState where
  queue : List (String × String)
  results : JobResults

/-- `POST /api/jobs/analyze` (lines 452-456): append the job to the queue
and reply with status "queued"; `JOB_RESULTS` is not touched. -/
def job_analyze (st : JobState) (jid : String) : JobState × String :=
  (⟨st.queue ++ [(jid, "analyze")], st.results⟩, "queued")

/-- `GET /api/jobs/{job_id}` (lines 458-460): read-only lookup. -/
def job_status (results : JobResults) (jid : String) : Option JobRecord :=
  List.lookup jid results

/-- The "status" field of the polled reply: `JOB_RESULTS.get(job_id,
{"status": "unknown"})`. -/
def statusOf : Option JobRecord → String
  | none => "unknown"
  | some (JobRecord.done _ _ _) => "done"
  | some (JobRecord.error _) => "error"

/-- The status string returned by polling. -/
def pollStatus (results : JobResults) (jid : String) : String :=
  statusOf (job_status results jid)

/-- One iteration of `worker` (lines 430-446) on a dequeued job.  The
database read of the totals is abstracted as `dbRead` (`Except.error e`
models an exception with text `e` caught by the `except` clause; the summary
string stands in for the formatted totals), and `ollama` is the value
`ask_ollama` returned. -/
def workerStep (results : JobResults) (jid kind created : String)
    (dbRead : Except String String) (ollama : Option String) : JobResults :=
  if kind = "analyze" then
    match dbRead with
    | Except.error e => mapSet results jid (JobRecord.error e)
    | Except.ok summary =>
      let ans := orElseStr ollama ("(offline) analysis")
      mapSet results jid (JobRecord.done created summary ans)
  else
    mapSet results jid (JobRecord.error ("unknown job"))

/-! ## Ollama collaborator (src/main.py lines 373-424) -/

/-- Result of one `requests.post` call in `ask_ollama`: a transport
failure/timeout (raises, caught by the enclosing `except`), or a status code
with the extracted optional text field. -/
inductive HttpTry
  | failed
  | ok (status : Nat) (body : Option String)
deriving DecidableEq

/-- Truthiness of the extracted text (`if msg:`). -/
def truthyOpt (o : Option String) : Bool :=
  match o with
  | none => false
  | some s => !(s == "")

/-- `ask_ollama` (lines 373-392): try the chat endpoint, fall back to the
generate endpoint, return `None` on any transport failure or non-200. -/
def ask_ollama (hasRequests : Bool) (chat gen : HttpTry) : Option String :=
  if !hasRequests then none
  else
    match chat with
    | HttpTry.failed => none
    | HttpTry.ok st msg =>
      if st == 200 && truthyOpt msg then msg
      else
        match gen with
        | HttpTry.failed => none
        | HttpTry.ok st2 resp => if st2 == 200 then resp else none

/-- The payload of the `/api/analyze` response (lines 395-410): summary and
analysis text; the summary string stands in for the formatted totals, and
the route's fallback is `"(offline) " ++ summary` (line 404, whose f-string
repeats the summary's totals). -/
structure AnalyzeResponse where
  summary : String
  analysis : String
deriving DecidableEq

/-- The analysis text selection of `/api/analyze` (line 404). -/
def analyzeRoute (summary : String) (ollama : Option String) :
    AnalyzeResponse :=
  ⟨summary, orElseStr ollama ("(offline) " ++ summary)⟩

/-- The answer selection of `/api/suggest` (line 419). -/
def suggestRoute (ollama : Option String) : String :=
  orElseStr ollama ("(offline) No LLM available.")

/-! ## Concrete instances used by counterexamples and witnesses -/

/-- A one-key store with a user-role key. -/
def demoKS : KeyStore := [("abc123", ⟨"user", "client"⟩)]

/-- A governed request carrying the valid demo key. -/
def demoReq : Request := ⟨"GET", "/api/analyze", none, some ("abc123"), "1.2.3.4"⟩

/-- The same request with an unknown key. -/
def demoReqBad : Request := ⟨"GET", "/api/analyze", none, some ("badkey"), "1.2.3.4"⟩

/-- A bucket state in which `demoReq`'s identity already used its quota. -/
def demoBucket : BucketMap := [("1.2.3.4:c123", ⟨100, 1⟩)]

/-- A trivial encryption scheme satisfying the Fernet contract: prepend a
marker character and strip it on decryption. -/
def demoScheme : Scheme :=
  ⟨fun x => ⟨'E' :: x.data⟩,
   fun y =>
     match y.data with
     | [] => none
     | _ :: t => some ⟨t⟩⟩

/-! ## Helper lemmas -/

/-- Lookup misses when the key is not among the stored keys. -/
theorem lookup_eq_none_of_not_mem {β : Type} (k : String)
    (m : List (String × β)) (h : k ∉ m.map Prod.fst) : List.lookup k m = none := by
  induction m with
  | nil => rfl
  | cons p t ih =>
    obtain ⟨a, b⟩ := p
    simp only [List.map_cons, List.mem_cons, not_or] at h
    have hka : (k == a) = false := beq_eq_false_iff_ne.mpr h.1
    simp only [List.lookup_cons, hka]
    exact ih h.2

/-- With duplicate-free keys, lookup finds exactly the stored value. -/
theorem lookup_eq_some_of_nodup {β : Type} {k : String} {v : β}
    {m : List (String × β)} (hnd : (m.map Prod.fst).Nodup) (h : (k, v) ∈ m) :
    List.lookup k m = some v := by
  induction m with
  | nil => simp at h
  | cons p t ih =>
    obtain ⟨a, b⟩ := p
    simp only [List.map_cons, List.nodup_cons] at hnd
    rcases List.mem_cons.mp h with h0 | h0
    · obtain ⟨rfl, rfl⟩ := Prod.mk.injEq .. ▸ h0
      simp [List.lookup_cons]
    · have hka : (k == a) = false := by
        refine beq_eq_false_iff_ne.mpr ?_
        rintro rfl
        exact hnd.1 (List.mem_map.mpr ⟨(k, v), h0, rfl⟩)
      simp only [List.lookup_cons, hka]
      exact ih hnd.2 h0

/-- Lookup after a dict assignment. -/
theorem lookup_mapSet {α : Type} (m : List (String × α)) (k j : String) (v : α) :
    List.lookup j (mapSet m k v) =
      if j = k then some v else List.lookup j m := by
  induction m with
  | nil =>
    by_cases hj : j = k
    · simp [mapSet, List.lookup_cons, hj]
    · have hb : (j == k) = false := beq_eq_false_iff_ne.mpr hj
      simp [mapSet, List.lookup_cons, hb, hj]
  | cons p t ih =>
    obtain ⟨a, b⟩ := p
    by_cases hak : a = k
    · subst hak
      by_cases hj : j = a
      · simp [mapSet, List.lookup_cons, hj]
      · have hb : (j == a) = false := beq_eq_false_iff_ne.mpr hj
        simp [mapSet, List.lookup_cons, hb, hj]
    · by_cases hj : j = a
      · subst hj
        simp [mapSet, hak, List.lookup_cons]
      · have hb : (j == a) = false := beq_eq_false_iff_ne.mpr hj
        simp only [mapSet, if_neg hak, List.lookup_cons, hb]
        exact ih

/-- The trace invariant is preserved by one step, provided `M ≥ 1`. -/
theorem runStep_inv (W M : Nat) (hM : 1 ≤ M) (p : Option Bucket × Nat)
    (t : Int) (hp : WindowInv M p) : WindowInv M (runStep W M p t) := by
  obtain ⟨st, n⟩ := p
  rcases hp with ⟨h1, h2⟩ | ⟨b, h1, h2, h3⟩
  · simp only at h1 h2
    subst h1; subst h2
    have hMc : ¬ M < 0 + 1 := by omega
    have hr : runStep W M ((none : Option Bucket), 0) t = (some ⟨t, 1⟩, 1) := by
      by_cases hW : (W : Int) ≤ t - t <;>
        simp [runStep, rateCheck, hW, hMc]
    rw [hr]
    exact Or.inr ⟨⟨t, 1⟩, rfl, rfl, hM⟩
  · simp only at h1 h2
    subst h1; subst h2
    by_cases hW : (W : Int) ≤ t - b.start
    · have hr : runStep W M (some b, b.count) t = (some ⟨t, 1⟩, 1) := by
        simp [runStep, rateCheck, hW]
      rw [hr]
      exact Or.inr ⟨⟨t, 1⟩, rfl, rfl, hM⟩
    · by_cases hMc : M < b.count + 1
      · have hr : runStep W M (some b, b.count) t = (some b, b.count) := by
          simp [runStep, rateCheck, hW, hMc]
        rw [hr]
        exact Or.inr ⟨b, rfl, rfl, h3⟩
      · have hr : runStep W M (some b, b.count) t =
            (some ⟨b.start, b.count + 1⟩, b.count + 1) := by
          simp [runStep, rateCheck, hW, hMc]
        rw [hr]
        refine Or.inr ⟨⟨b.start, b.count + 1⟩, rfl, rfl, ?_⟩
        show b.count + 1 ≤ M
        omega

/-- The trace invariant holds along any trace. -/
theorem foldl_inv (W M : Nat) (hM : 1 ≤ M) (ts : List Int)
    (p : Option Bucket × Nat) (hp : WindowInv M p) :
    WindowInv M (ts.foldl (runStep W M) p) := by
  induction ts generalizing p with
  | nil => exact hp
  | cons t ts ih => exact ih _ (runStep_inv W M hM p t hp)

/-! ## Claim C1: fixed-window rate decision -/

/-- C1 (counterexample): at time 160, a window opened at 100 has age
exactly `W = 60`, which does not *exceed* `W`, and its pre-increment count
5 is at least `M = 5`, so the claim predicts a denial without change; the
code instead resets the window and admits the call, because line 243 tests
`now - start >= RATE_WINDOW_SEC`, not a strict inequality. -/
theorem fixed_window_boundary_cex :
    ¬ ((60 : Int) < 160 - 100) ∧ (5 : Nat) ≤ 5
    ∧ rateCheck 60 5 160 (some ⟨100, 5⟩) = (some ⟨160, 1⟩, true)
    ∧ rateCheck 60 5 160 (some ⟨100, 5⟩) ≠ (some ⟨100, 5⟩, false) := by decide

/-- C1 (amended): provided `M ≥ 1`, a call with no existing window, or
whose window age is at least `W` (not only strictly above it), opens a
fresh window with count 1 and is admitted; otherwise the call is admitted,
incrementing the count, exactly when the pre-increment count is strictly
below `M`, and is denied without any state change when it is at least
`M`. -/
theorem fixed_window_rate_spec (W M : Nat) (now : Int) (hM : 1 ≤ M) :
    rateCheck W M now none = (some ⟨now, 1⟩, true)
    ∧ (∀ s c, (W : Int) ≤ now - s →
        rateCheck W M now (some ⟨s, c⟩) = (some ⟨now, 1⟩, true))
    ∧ (∀ s c, now - s < (W : Int) → c < M →
        rateCheck W M now (some ⟨s, c⟩) = (some ⟨s, c + 1⟩, true))
    ∧ (∀ s c, now - s < (W : Int) → M ≤ c →
        rateCheck W M now (some ⟨s, c⟩) = (some ⟨s, c⟩, false)) := by
  refine ⟨?_, ?_, ?_, ?_⟩
  · have hMc : ¬ M < 0 + 1 := by omega
    by_cases hW : (W : Int) ≤ now - now <;> simp [rateCheck, hW, hMc]
  · intro s c hW
    simp [rateCheck, hW]
  · intro s c hW hc
    have h1 : ¬ (W : Int) ≤ now - s := by omega
    have h2 : ¬ M < c + 1 := by omega
    simp [rateCheck, h1, h2]
  · intro s c hW hc
    have h1 : ¬ (W : Int) ≤ now - s := by omega
    have h2 : M < c + 1 := by omega
    simp [rateCheck, h1, h2]

/-- C1 (witness): the amended rate decision evaluated at the defaults on a
fresh identity. -/
theorem fixed_window_rate_spec_witness :
    rateCheck 60 5 0 none = (some ⟨0, 1⟩, true) :=
  (fixed_window_rate_spec 60 5 0 (by decide)).1

/-! ## Claim C6: at most M admitted per window -/

/-- C6 (counterexample): with `W = 60`, `M = 5`, every call of the trace
below is admitted (one call opens a window at time 0, four more arrive late
in that window at 59, and five further calls arrive at 60, when the window
resets); the nine admitted calls at times 59 and 60 all lie inside the
sixty-second interval from 1 inclusive to 61 exclusive, so an arbitrary
`W`-second window can contain more than `M` admitted calls — the boundary
burst of a fixed-window limiter. -/
theorem sliding_interval_cex :
    5 < ((allowedTimes 60 5 [0, 59, 59, 59, 59, 60, 60, 60, 60, 60]).filter
      (fun t => decide (1 ≤ t) && decide (t < 61))).length := by decide

/-- C6 (amended): within any single fixed window maintained by the limiter
— from the call that opens it until a later call resets it — at most `M`
calls of a per-identity trace are admitted: the running in-window admitted
tally never exceeds `M` and always equals the stored window count.
Per-identity bucket updates contain no suspension point, so they are atomic
under the cooperative scheduler and sequential traces cover all
interleavings of concurrent submission. -/
theorem rate_limiter_window_bound (W M : Nat) (ts : List Int) (hM : 1 ≤ M) :
    (runTrace W M ts).2 ≤ M
    ∧ (∀ b : Bucket, (runTrace W M ts).1 = some b →
        b.count = (runTrace W M ts).2 ∧ b.count ≤ M) := by
  have h := foldl_inv W M hM ts (none, 0) (Or.inl ⟨rfl, rfl⟩)
  have hrt : runTrace W M ts = ts.foldl (runStep W M) (none, 0) := rfl
  rw [hrt]
  rcases h with ⟨h1, h2⟩ | ⟨b, h1, h2, h3⟩
  · refine ⟨by rw [h2]; exact Nat.zero_le M, ?_⟩
    intro b hb
    rw [h1] at hb
    cases hb
  · refine ⟨by rw [h2]; exact h3, ?_⟩
    intro b2 hb2
    rw [h1] at hb2
    obtain rfl : b = b2 := Option.some.inj hb2
    exact ⟨h2.symm, h3⟩

/-- C6 (witness): the per-window bound evaluated on a three-call trace at
the spec's example configuration. -/
theorem rate_limiter_window_bound_witness :
    (runTrace 60 5 [0, 30, 59]).2 ≤ 5 :=
  (rate_limiter_window_bound 60 5 [0, 30, 59] (by decide)).1

/-! ## Claim C5: authentication against the key store -/

/-- C5 (confirmed): tokens are compared after the whitespace strip the code
itself applies (`require_key` strips the header, `client_by_key` strips
again); for any well-formed key store, a supplied token that is not a
stored key — in particular an absent header — is rejected with a 401, and
any stored token authenticates to exactly its stored role and display
name. -/
theorem authenticate_spec (ks : KeyStore) (hwf : WFStore ks) :
    (∀ header : Option String,
        strip (strip (orEmpty header)) ∉ ks.map Prod.fst →
        require_key ks header = Except.error 401)
    ∧ (∀ t m, (t, m) ∈ ks →
        require_key ks (some t) = Except.ok ⟨t, m.role, m.name, lastN 4 t⟩) := by
  constructor
  · intro header h
    by_cases h0 : strip (orEmpty header) = ""
    · simp [require_key, client_by_key, h0]
    · simp [require_key, client_by_key, if_neg h0,
        lookup_eq_none_of_not_mem _ _ h]
  · intro t m hm
    have ht := hwf.2 (t, m) hm
    have hne : t ≠ "" := ht.1
    have hst : strip t = t := ht.2
    have hcbk : client_by_key ks (some t) =
        some ⟨t, m.role, m.name, lastN 4 t⟩ := by
      simp [client_by_key, if_neg hne, hst,
        lookup_eq_some_of_nodup hwf.1 hm]
    simp [require_key, orEmpty, hst, hcbk]

/-- C5 (witness): on the demo store an unknown token gets 401 and the
stored token resolves to its stored role and name. -/
theorem authenticate_spec_witness :
    require_key demoKS (some ("zzz")) = Except.error 401
    ∧ require_key demoKS (some ("abc123")) =
        Except.ok ⟨"abc123", "user", "client", lastN 4 ("abc123")⟩ :=
  ⟨(authenticate_spec demoKS ⟨by decide, by decide⟩).1 (some ("zzz")) (by decide),
   (authenticate_spec demoKS ⟨by decide, by decide⟩).2 ("abc123")
     ⟨"user", "client"⟩ (by decide)⟩

/-! ## Claim C8: admin gating -/

/-- C8 (confirmed): on an admin-gated route a token resolving to a
non-admin credential is rejected with 403 — a status distinct from the 401
of authentication failure — an admin credential passes, and any
authentication failure propagates unchanged, so authentication takes
precedence over authorization. -/
theorem require_admin_spec :
    (∀ (ks : KeyStore) (header : Option String) (c : Client),
        require_key ks header = Except.ok c → c.role ≠ "admin" →
        require_admin ks header = Except.error 403)
    ∧ (∀ (ks : KeyStore) (header : Option String) (e : Nat),
        require_key ks header = Except.error e →
        require_admin ks header = Except.error e)
    ∧ (∀ (ks : KeyStore) (header : Option String) (c : Client),
        require_key ks header = Except.ok c → c.role = "admin" →
        require_admin ks header = Except.ok c) := by
  refine ⟨?_, ?_, ?_⟩
  · intro ks header c h hc
    simp [require_admin, h, hc]
  · intro ks header e h
    simp [require_admin, h]
  · intro ks header c h hc
    simp [require_admin, h, hc]

/-- C8 (witness): on the demo store the valid user-role key gets 403 on an
admin route while an unknown key gets 401. -/
theorem require_admin_spec_witness :
    require_admin demoKS (some ("abc123")) = Except.error 403
    ∧ require_admin demoKS (some ("zzz")) = Except.error 401 :=
  ⟨require_admin_spec.1 demoKS (some ("abc123"))
      ⟨"abc123", "user", "client", "c123"⟩ rfl (by decide),
   require_admin_spec.2.1 demoKS (some ("zzz")) 401 rfl⟩

/-! ## Claim C10: encryption round trip -/

/-- The demo scheme satisfies the Fernet contract. -/
theorem demoScheme_ok : SchemeOK demoScheme :=
  ⟨fun _ _ => rfl,
   fun x _ h => List.cons_ne_nil 'E' x.data (congrArg String.data h)⟩

/-- C10 (confirmed): for every optional string, `dec` after `enc` is the
identity: with no key configured both functions are identities, and with a
Fernet object satisfying the library contract (decryption inverts
encryption, ciphertexts are nonempty) the pair round-trips, falsy values
passing through both functions unchanged. -/
theorem enc_dec_roundtrip (fern : Option Scheme)
    (hok : ∀ f, fern = some f → SchemeOK f) :
    (∀ s : Option String, dec fern (enc fern s) = s)
    ∧ (∀ s : Option String, enc none s = s ∧ dec none s = s) := by
  constructor
  · intro s
    match s with
    | none => rfl
    | some s0 =>
      by_cases h0 : s0 = ""
      · subst h0
        simp [enc, dec]
      · match hf : fern with
        | none => simp [enc, dec, h0]
        | some f =>
          have hfo := hok f rfl
          have h1 : f.encrypt s0 ≠ "" := hfo.2 s0 h0
          have h2 : f.decrypt (f.encrypt s0) = some s0 := hfo.1 s0 h0
          simp [enc, dec, h0, h1, h2]
  · intro s
    match s with
    | none => exact ⟨rfl, rfl⟩
    | some s0 =>
      by_cases h0 : s0 = "" <;> simp [enc, dec, h0]

/-- C10 (witness): the round trip evaluated with a concrete scheme
satisfying the Fernet contract. -/
theorem enc_dec_roundtrip_witness :
    dec (some demoScheme) (enc (some demoScheme) (some ("hi"))) = some ("hi") :=
  (enc_dec_roundtrip (some demoScheme)
    (fun f hf => Option.some.inj hf ▸ demoScheme_ok)).1 (some ("hi"))

/-! ## Claim C9: collaborator failure degrades to a fallback -/

/-- C9 (confirmed): whenever `ask_ollama` yields no text — in particular
whenever the chat transport call fails or times out (last conjunct) — the
synchronous analyze and suggest routes and the Worker each substitute their
deterministic fallback string and complete successfully: the analyze
response carries the offline summary text, the suggest response the fixed
offline string, and the Worker still records a `done` result. -/
theorem collaborator_fallback (hr : Bool) (chat gen : HttpTry)
    (summary created jid s : String) (results : JobResults)
    (h : ask_ollama hr chat gen = none) :
    analyzeRoute summary (ask_ollama hr chat gen) =
      ⟨summary, "(offline) " ++ summary⟩
    ∧ suggestRoute (ask_ollama hr chat gen) = "(offline) No LLM available."
    ∧ workerStep results jid ("analyze") created (Except.ok s)
        (ask_ollama hr chat gen) =
        mapSet results jid (JobRecord.done created s ("(offline) analysis"))
    ∧ (∀ gen2 : HttpTry, ask_ollama true HttpTry.failed gen2 = none) := by
  refine ⟨?_, ?_, ?_, fun gen2 => rfl⟩
  · rw [h]
    rfl
  · rw [h]
    rfl
  · rw [h]
    rfl

/-- C9 (witness): the fallback path evaluated at a failed transport call. -/
theorem collaborator_fallback_witness :
    analyzeRoute ("S") (ask_ollama true HttpTry.failed HttpTry.failed) =
      ⟨"S", "(offline) " ++ "S"⟩ :=
  (collaborator_fallback true HttpTry.failed HttpTry.failed
    ("S") ("T") ("j") ("S") [] rfl).1

/-! ## Claim C4: poll status after enqueue -/

/-- C4 (counterexample): enqueueing writes nothing to `JOB_RESULTS` (only
the enqueue response itself says "queued"), so polling immediately after
enqueue returns "unknown", not "queued" or "running" — refuting the claim
that an immediate poll reports queued or running. -/
theorem poll_after_enqueue_cex :
    pollStatus (job_analyze ⟨[], []⟩ ("a1b2")).1.results ("a1b2") = "unknown"
    ∧ ¬ (pollStatus (job_analyze ⟨[], []⟩ ("a1b2")).1.results ("a1b2") = "queued"
        ∨ pollStatus (job_analyze ⟨[], []⟩ ("a1b2")).1.results ("a1b2") = "running") := by
  decide

/-- C4 (amended): polling an id never stored in the results map returns
"unknown"; polling a fresh job id immediately after enqueue — before the
Worker finishes it — also returns "unknown", never "done" or "error" (and
never "queued" or "running": those appear only in the enqueue response,
whose status field is "queued"). -/
theorem poll_status_spec :
    (∀ (results : JobResults) (jid : String),
        List.lookup jid results = none → pollStatus results jid = "unknown")
    ∧ (∀ (st : JobState) (jid : String),
        List.lookup jid st.results = none →
        (job_analyze st jid).2 = "queued"
        ∧ pollStatus (job_analyze st jid).1.results jid = "unknown"
        ∧ pollStatus (job_analyze st jid).1.results jid ≠ "done"
        ∧ pollStatus (job_analyze st jid).1.results jid ≠ "error") := by
  have base : ∀ (results : JobResults) (jid : String),
      List.lookup jid results = none → pollStatus results jid = "unknown" := by
    intro results jid h
    simp [pollStatus, job_status, h, statusOf]
  refine ⟨base, ?_⟩
  intro st jid h
  have hres : (job_analyze st jid).1.results = st.results := rfl
  rw [hres]
  have hu := base st.results jid h
  exact ⟨rfl, hu, by rw [hu]; decide, by rw [hu]; decide⟩

/-- C4 (witness): evaluated on the empty job state with a fresh id. -/
theorem poll_status_spec_witness :
    pollStatus [] ("j") = "unknown"
    ∧ (job_analyze ⟨[], []⟩ ("j")).2 = "queued" :=
  ⟨poll_status_spec.1 [] ("j") rfl, (poll_status_spec.2 ⟨[], []⟩ ("j") rfl).1⟩

/-! ## Claim C7: worker leaves stable terminal records -/

/-- C7 (counterexample): an exception whose text is empty (Python
`str(e)` can be the empty string) leaves an error record whose message is
empty, because line 444 stores `str(e)` verbatim — so "a non-empty error
message" does not hold for every throwing execution. -/
theorem worker_empty_error_cex :
    List.lookup ("j1") (workerStep [] ("j1") ("analyze") ("t0")
      (Except.error ("")) none) = some (JobRecord.error (""))
    ∧ statusOf (some (JobRecord.error (""))) = "error" := by decide

/-- C7 (amended): every worker iteration leaves the processed job with a
terminal record — status "done" or "error", never a lingering "running" —
where an unrecognized kind stores the non-empty message "unknown job" and a
throwing execution stores exactly the exception's text (non-empty whenever
that text is); and a later worker iteration on a different job id leaves
the record untouched, so repeated polls of a terminal job are stable. -/
theorem worker_terminal_spec (results : JobResults)
    (jid kind created : String) (dbRead : Except String String)
    (ollama : Option String) :
    (statusOf (List.lookup jid
        (workerStep results jid kind created dbRead ollama)) = "done"
      ∨ statusOf (List.lookup jid
          (workerStep results jid kind created dbRead ollama)) = "error")
    ∧ (kind ≠ "analyze" →
        List.lookup jid (workerStep results jid kind created dbRead ollama) =
          some (JobRecord.error ("unknown job")))
    ∧ (∀ e, dbRead = Except.error e → kind = "analyze" →
        List.lookup jid (workerStep results jid kind created dbRead ollama) =
          some (JobRecord.error e))
    ∧ (∀ (jid2 kind2 created2 : String) (db2 : Except String String)
        (ol2 : Option String), jid2 ≠ jid →
        List.lookup jid
          (workerStep (workerStep results jid kind created dbRead ollama)
            jid2 kind2 created2 db2 ol2) =
        List.lookup jid (workerStep results jid kind created dbRead ollama)) := by
  have hlk : ∀ (m : JobResults) (r : JobRecord),
      List.lookup jid (mapSet m jid r) = some r := by
    intro m r
    rw [lookup_mapSet]
    simp
  have hmain : ∃ r : JobRecord,
      List.lookup jid (workerStep results jid kind created dbRead ollama) =
        some r := by
    unfold workerStep
    by_cases hk : kind = "analyze"
    · rw [if_pos hk]
      cases dbRead with
      | error e => exact ⟨JobRecord.error e, hlk _ _⟩
      | ok s => exact ⟨_, hlk _ _⟩
    · rw [if_neg hk]
      exact ⟨_, hlk _ _⟩
  refine ⟨?_, ?_, ?_, ?_⟩
  · obtain ⟨r, hr⟩ := hmain
    rw [hr]
    cases r with
    | done a b c => exact Or.inl rfl
    | error m => exact Or.inr rfl
  · intro hk
    unfold workerStep
    rw [if_neg hk]
    exact hlk _ _
  · intro e he hk
    unfold workerStep
    rw [if_pos hk, he]
    exact hlk _ _
  · intro jid2 kind2 created2 db2 ol2 hne
    generalize workerStep results jid kind created dbRead ollama = m
    have hne2 : ¬ jid = jid2 := fun h => hne h.symm
    unfold workerStep
    by_cases hk2 : kind2 = "analyze"
    · rw [if_pos hk2]
      cases db2 with
      | error e2 => rw [lookup_mapSet, if_neg hne2]
      | ok s2 => rw [lookup_mapSet, if_neg hne2]
    · rw [if_neg hk2, lookup_mapSet, if_neg hne2]

/-- C7 (witness): an unrecognized job kind leaves the non-empty terminal
error record "unknown job". -/
theorem worker_terminal_spec_witness :
    List.lookup ("j") (workerStep [] ("j") ("frobnicate") ("t")
      (Except.ok ("S")) none) = some (JobRecord.error ("unknown job")) :=
  (worker_terminal_spec [] ("j") ("frobnicate") ("t")
    (Except.ok ("S")) none).2.1 (by decide)

/-! ## Claim C2: one audit record per non-bypassed request -/

/-- C2 (counterexample): a request denied by the rate limiter is answered
429 by the `return` on line 248, which precedes the audit line 255, so it
produces a warning log entry but zero audit records — refuting "exactly one
audit record ... including when the request is denied by the rate limiter
with a 429". -/
theorem audit_denied_no_record_cex :
    (governedCall demoKS 60 1 100 demoBucket demoReq
      (fun _ => Outcome.response 200)).1 = 429
    ∧ auditCount (governedCall demoKS 60 1 100 demoBucket demoReq
        (fun _ => Outcome.response 200)).2.2 = 0 := by decide

/-- C2 (amended): a non-bypassed request produces exactly one audit record
when it passes the rate check and its inner handling returns a response —
including 401 authentication failures, which the framework converts into a
response before the audit line runs; a rate-limit denial and an unhandled
exception each produce zero audit records (a warning and an error log line
instead), and bypassed requests produce none. -/
theorem audit_record_count (W M : Nat) (now : Int) (bucket : BucketMap)
    (req : Request) (inner : Outcome) :
    auditCount (dispatch W M now bucket req inner).2.2 =
      if bypassed req.path then 0
      else if rateDenied W M now bucket req then 0
      else
        match inner with
        | Outcome.response _ => 1
        | Outcome.raised _ => 0 := by
  cases inner with
  | response st =>
    simp only [dispatch, rateDenied, identityTok]
    split_ifs <;>
      first
        | contradiction
        | simp [afterRate, auditCount, isAudit]
  | raised m =>
    simp only [dispatch, rateDenied, identityTok]
    split_ifs <;>
      first
        | contradiction
        | simp [afterRate, auditCount, isAudit]

/-! ## Claim C3: authentication order and rate-limiter frame -/

/-- C3 (counterexample): the rate-limit middleware runs before routing, so
a request whose key fails authentication (the response is a 401) still
mutates the rate limiter's state — after the call the bucket map has
gained an entry — refuting "mutated ... not at all when authentication
fails". -/
theorem rate_before_auth_mutation_cex :
    (governedCall demoKS 60 5 100 [] demoReqBad
      (fun _ => Outcome.response 200)).1 = 401
    ∧ (governedCall demoKS 60 5 100 [] demoReqBad
        (fun _ => Outcome.response 200)).2.1 = [("1.2.3.4:dkey", ⟨100, 1⟩)]
    ∧ (governedCall demoKS 60 5 100 [] demoReqBad
        (fun _ => Outcome.response 200)).2.1 ≠ ([] : BucketMap) := by decide

/-- C3 (amended): for every non-bypassed request the rate check runs
before authentication: a rate-denied request is answered 429 identically
for every key store and every handler (authentication is never consulted);
a request that passes the rate check mutates the rate limiter's bucket
exactly once — to the reset or incremented window — regardless of the
authentication outcome; and an authentication failure still
short-circuits the route handler, the response status being 401 and
independent of the handler. -/
theorem governor_order_and_frame (ks : KeyStore) (W M : Nat) (now : Int)
    (bucket : BucketMap) (req : Request) (handler : Client → Outcome)
    (hb : bypassed req.path = false) :
    (rateDenied W M now bucket req = true →
      ∀ (ks2 : KeyStore) (handler2 : Client → Outcome),
        governedCall ks2 W M now bucket req handler2 =
          (429, bucket,
            [LogEntry.warn429 (clientIp req)
              (kLast4 (strip (orEmpty req.apiKey))) req.path]))
    ∧ (rateDenied W M now bucket req = false →
        (governedCall ks W M now bucket req handler).2.1 =
          mapSet bucket (identityTok req)
            (nextBucket W now
              ((List.lookup (identityTok req) bucket).getD ⟨now, 0⟩)))
    ∧ (require_key ks req.apiKey = Except.error 401 →
        (∀ handler2 : Client → Outcome,
          governedCall ks W M now bucket req handler2 =
            governedCall ks W M now bucket req handler)
        ∧ (rateDenied W M now bucket req = false →
            (governedCall ks W M now bucket req handler).1 = 401)) := by
  have hbd : bypassed req.path = false := hb
  refine ⟨?_, ?_, ?_⟩
  · intro hd ks2 handler2
    simp only [rateDenied, identityTok] at hd
    simp only [governedCall, dispatch, identityTok, hbd, Bool.false_eq_true,
      if_false]
    split_ifs with hW hM2
    · simp [hW] at hd
    · rfl
    · simp [hW, hM2] at hd
  · intro hd
    simp only [rateDenied, identityTok] at hd
    simp only [governedCall, dispatch, identityTok, nextBucket, hbd,
      Bool.false_eq_true, if_false]
    split_ifs with hW hM2
    · cases innerApp ks req handler with
      | response st => rfl
      | raised m => rfl
    · simp [hW, hM2] at hd
    · cases innerApp ks req handler with
      | response st => rfl
      | raised m => rfl
  · intro hq
    have hi : ∀ handler2 : Client → Outcome,
        innerApp ks req handler2 = Outcome.response 401 := by
      intro handler2
      simp [innerApp, hq]
    constructor
    · intro handler2
      simp only [governedCall]
      rw [hi handler2, hi handler]
    · intro hd
      simp only [rateDenied, identityTok] at hd
      simp only [governedCall, dispatch, identityTok, hbd,
        Bool.false_eq_true, if_false]
      rw [hi handler]
      split_ifs with hW hM2
      · rfl
      · simp [hW, hM2] at hd
      · rfl

/-- C3 (witness): the frame property instantiated on a fresh bucket with an
invalid key — the bucket receives exactly its one mutation even though
authentication fails. -/
theorem governor_order_and_frame_witness :
    bypassed ("/api/analyze") = false
    ∧ (governedCall demoKS 60 5 100 [] demoReqBad
        (fun _ => Outcome.response 200)).2.1 =
      mapSet [] (identityTok demoReqBad)
        (nextBucket 60 100 ((List.lookup (identityTok demoReqBad)
          ([] : BucketMap)).getD ⟨100, 0⟩)) :=
  ⟨by decide,
   (governor_order_and_frame demoKS 60 5 100 [] demoReqBad
      (fun _ => Outcome.response 200) (by decide)).2.1 (by decide)⟩

end ProjectZ
